import Mathlib

/-!
Verification of the cassiopeia range-restricted retrieval proxy
(httpserver/rangehandler/rangehandler.go) against its specification.

The handler `rangeHandler.handler` is embedded shallowly: the results of the
external trustless-utils / CAR-storage library calls it makes are inputs (an
`Env`), and the handler is the pure function from those inputs to the ordered
list of observable actions it performs (writes of error statuses, invocations
of the underlying `next` handler, construction of the writable CAR sink, the
verifying traversal, context cancellation), together with the body of the
producer goroutine it spawns on the ranged path.
-/

deriving instance DecidableEq for Except

namespace Cassiopeia

/-- Content identifier: abstracted as a number naming a block. -/
abbrev Cid := Nat

/-- trustlessutils.ByteRange: `From` may be negative (offset from the end),
`To` is optional (absent means "to the end of the object"). -/
structure ByteRange where
  From : Int
  To : Option Int
deriving DecidableEq, Repr

/-- trustlessutils.DagScope: how much of the graph below the target is traversed. -/
inductive DagScope where
  | all
  | entity
  | block
deriving DecidableEq, Repr

/-- trustlesshttp.Accept, restricted to the single field the handler reads. -/
structure Accept where
  Duplicates : Bool
deriving DecidableEq, Repr

/-- Error kinds of trustlesshttp.ParseUrlPath, distinguished by the handler's
errors.Is checks (rangehandler.go lines 41-47). -/
inductive PathErr where
  | errPathNotFound
  | errBadCid
  | other (msg : String)
deriving DecidableEq, Repr

/-- err.Error() for a path-parse error. -/
def PathErr.message : PathErr → String
  | .errPathNotFound => "path not found"
  | .errBadCid => "bad cid"
  | .other msg => msg

/-- An inbound HTTP request, restricted to the parts the handler touches.
The query is the decoded multimap of url.Values; `ctx` names the attached
context.Context value. -/
structure Request where
  method : String
  urlPath : String
  query : List (String × String)
  headers : List (String × String)
  ctx : Nat
deriving DecidableEq, Repr

/-- url.Values lookup: all values attached to a key, in order. -/
def Request.queryValues (req : Request) (key : String) : List String :=
  (req.query.filter (fun kv => kv.1 = key)).map (fun kv => kv.2)

/-- req.Clone(ctx): the same request with the given context attached
(net/http clones URL, headers and query; only the context changes here). -/
def Request.clone (req : Request) (ctx : Nat) : Request :=
  { req with ctx := ctx }

/-- q := clonedReq.URL.Query(); q.Del("entity-bytes");
clonedReq.URL.RawQuery = q.Encode() — removal of the byte-range query
parameter, leaving every other parameter in place. -/
def Request.delEntityBytes (req : Request) : Request :=
  { req with query := req.query.filter (fun kv => kv.1 ≠ "entity-bytes") }

/-- context.WithCancel(parent): a fresh child context, distinct from its parent. -/
def childCtx (ctx : Nat) : Nat := ctx + 1

/-- Results of the external library calls the handler makes, fixed per request.
The libraries are external collaborators specified at their interface boundary:
trustlesshttp.ParseByteRange returns a nil ByteRange whenever it returns an
error (and nil, nil when the entity-bytes parameter is absent), so its result
is an Except of an Option.  `verifyCar` is the pair returned by
traversal.Config.VerifyCar, which the handler discards. -/
structure Env where
  parseByteRange : Except String (Option ByteRange)
  parseUrlPath : Except PathErr (Cid × String)
  checkFormat : Except String Accept
  parseScope : Except String DagScope
  newWritable : Except String Unit
  verifyCar : Except String Nat
deriving DecidableEq, Repr

/-- trustlessutils.Request as constructed by the handler (lines 99-105). -/
structure TrustlessRequest where
  Root : Cid
  Path : String
  Scope : DagScope
  Bytes : Option ByteRange
  Duplicates : Bool
deriving DecidableEq, Repr

/-- traversal.Config as constructed by the handler (lines 108-114).
`Selector` records the trustless request whose Selector() method supplies the
selector; `SkipUnexpected` models the UnsafeSkipUnexpected option. -/
structure TraversalConfig where
  Root : Cid
  Selector : TrustlessRequest
  ExpectDuplicatesIn : Bool
  WriteDuplicatesOut : Bool
  SkipUnexpected : Bool
deriving DecidableEq, Repr

/-- Where a writer's bytes go: the real client connection (res), or the write
end of the io.Pipe (wr), which the httpsnoop wrapper substitutes for
res.Write in the producer goroutine (lines 84-88). -/
inductive WriteTarget where
  | clientConn
  | pipeWriter
deriving DecidableEq, Repr

/-- Observable steps of the handler and of the spawned producer goroutine.
`closePipeWriter` (a wr.Close or wr.CloseWithError call) and `logError` are
included so their absence from a trace is expressible. -/
inductive Action where
  | httpError (msg : String) (status : Nat)
  | callNext (target : WriteTarget) (req : Request)
  | mkWritable (target : WriteTarget) (roots : List Cid) (asCarV1 : Bool)
      (allowDuplicatePuts : Bool)
  | verifyCar (cfg : TraversalConfig) (result : Except String Nat)
  | cancelCtx
  | closePipeWriter
  | logError (msg : String)
deriving DecidableEq, Repr

/-- The handler's effects: the actions of the main request flow in order, and,
when the producer goroutine is spawned (line 83), the actions of its body. -/
structure HandlerResult where
  mainTrace : List Action
  producer : Option (List Action)
deriving DecidableEq, Repr

/-- Shallow embedding of rangeHandler.handler (rangehandler.go lines 24-115),
branch for branch.  Note that the source's byte-range error branch (lines
27-29) writes the 400 status but does not return, so control continues into
the nil check. -/
def rangeHandler.handler (env : Env) (req : Request) : HandlerResult :=
  -- byteRange, err := trustlesshttp.ParseByteRange(req)
  let byteRange : Option ByteRange :=
    match env.parseByteRange with
    | .error _ => none
    | .ok br => br
  -- if err != nil: http.Error(res, err.Error(), http.StatusBadRequest) — no return
  let trace0 : List Action :=
    match env.parseByteRange with
    | .error e => [.httpError e 400]
    | .ok _ => []
  match byteRange with
  | none =>
    -- if byteRange == nil: rh.next(res, req); return
    ⟨trace0 ++ [.callNext .clientConn req], none⟩
  | some byteRange =>
    -- rootCid, path, err := trustlesshttp.ParseUrlPath(req.URL.Path)
    match env.parseUrlPath with
    | .error e =>
      let status : Nat :=
        match e with
        | .errPathNotFound => 404
        | .errBadCid => 400
        | .other _ => 500
      ⟨trace0 ++ [.httpError e.message status], none⟩
    | .ok (rootCid, path) =>
      -- accept, err := trustlesshttp.CheckFormat(req)
      match env.checkFormat with
      | .error e => ⟨trace0 ++ [.httpError e 400], none⟩
      | .ok accept =>
        -- dagScope, err := trustlesshttp.ParseScope(req)
        match env.parseScope with
        | .error e => ⟨trace0 ++ [.httpError e 400], none⟩
        | .ok dagScope =>
          -- writable, err := storage.NewWritable(res, cids of rootCid,
          --   car.WriteAsCarV1(true), car.AllowDuplicatePuts(accept.Duplicates))
          let mk := Action.mkWritable .clientConn [rootCid] true accept.Duplicates
          match env.newWritable with
          | .error e => ⟨trace0 ++ [mk, .httpError e 500], none⟩
          | .ok _ =>
            -- r, wr := io.Pipe(); ctx, cancel := context.WithCancel(req.Context())
            let ctx := childCtx req.ctx
            -- go func: wrap res so Write goes to wr, clone req with ctx,
            -- delete the entity-bytes query parameter, call rh.next
            let clonedReq := Request.delEntityBytes (req.clone ctx)
            let producerBody : List Action := [.callNext .pipeWriter clonedReq]
            -- defer cancel()
            -- request := trustlessutils.Request with Root, Path, Scope, Bytes, Duplicates
            let request : TrustlessRequest :=
              { Root := rootCid
                Path := path
                Scope := dagScope
                Bytes := some byteRange
                Duplicates := accept.Duplicates }
            -- the result pair of VerifyCar is discarded by the source
            let cfg : TraversalConfig :=
              { Root := rootCid
                Selector := request
                ExpectDuplicatesIn := accept.Duplicates
                WriteDuplicatesOut := accept.Duplicates
                SkipUnexpected := true }
            ⟨trace0 ++ [mk, .verifyCar cfg env.verifyCar, .cancelCtx],
             some producerBody⟩

/-- HandleRanges wraps a next handler; its result is the handler itself. -/
def HandleRanges (env : Env) (req : Request) : HandlerResult :=
  rangeHandler.handler env req

/-! The Verifying Range Extractor.  The selective traversal itself lives in the
external go-trustless-utils traversal package, outside this repository, so it
is modelled from the specification's contract for it. -/

/-- Modelled from the spec: the Verifying Range Extractor's byte selection
(the traversal package's VerifyCar, absent from this repository).  The logical
object is the concatenation of its leaf blocks in traversal order; for a
resolved range [a, b) the extractor walks the blocks in arrival order, keeps a
running offset, and emits from each block exactly the sub-span of its bytes
that falls inside [a, b); blocks entirely outside the range are consumed but
contribute no output. -/
def extractRange : Nat → Nat → List (List Nat) → List Nat
  | _, _, [] => []
  | a, b, c :: cs =>
    (c.drop a).take (b - a) ++ extractRange (a - c.length) (b - c.length) cs

/-- Modelled from the spec: the Verifying Range Extractor with verification
(absent from this repository).  Each arriving block's bytes are checked
against its declared content identifier under a hash function; a mismatch
aborts the extraction with no output for the remainder of the stream. -/
def extractVerified (hash : List Nat → Nat) :
    Nat → Nat → List (Cid × List Nat) → Option (List Nat)
  | _, _, [] => some []
  | a, b, (cid, blk) :: rest =>
    if hash blk = cid then
      (extractVerified hash (a - blk.length) (b - blk.length) rest).map
        (fun tail => (blk.drop a).take (b - a) ++ tail)
    else none

/-! The Pipe Bridge conduit.  io.Pipe is unbuffered: each read rendezvouses
with a write, and a read can also complete once the write end is closed. -/

/-- A blocked Read on the io.Pipe read end can complete only when a write is
pending on the other end or the write end has been closed. -/
def readCanComplete (pendingWrites : List (List Nat)) (writerClosed : Bool) : Bool :=
  writerClosed || !pendingWrites.isEmpty

/-- Whether a task's actions ever close the pipe write end. -/
def closesPipe (acts : List Action) : Bool :=
  acts.any (fun a => a = .closePipeWriter)

/-- Whether an action writes to the client: an error status or a direct write
through a writer aimed at the client connection. -/
def writesToClient : Action → Bool
  | .httpError _ _ => true
  | .callNext t _ => t = .clientConn
  | .mkWritable _ _ _ _ => false
  | .verifyCar _ _ => false
  | .cancelCtx => false
  | .closePipeWriter => false
  | .logError _ => false

/-- Whether an action is a log call. -/
def isLog : Action → Bool
  | .logError _ => true
  | _ => false

/-- Whether an action is a traversal run (a VerifyCar invocation). -/
def isTraversal : Action → Bool
  | .verifyCar _ _ => true
  | _ => false

/-- Whether an action is an invocation of the underlying next handler. -/
def invokesNext : Action → Bool
  | .callNext _ _ => true
  | _ => false

/-- Whether an action constructs the writable CAR sink. -/
def isMkWritable : Action → Bool
  | .mkWritable _ _ _ _ => true
  | _ => false

/-- Whether every duplicate-policy configuration point occurring in a trace
carries the given value: the CAR sink's AllowDuplicatePuts option, the
trustless request's Duplicates field, and the traversal's ExpectDuplicatesIn
and WriteDuplicatesOut settings. -/
def duplicatesConsistent (res : HandlerResult) (d : Bool) : Bool :=
  res.mainTrace.all fun a =>
    match a with
    | .mkWritable _ _ _ allowDup => allowDup = d
    | .verifyCar cfg _ =>
      cfg.ExpectDuplicatesIn = d && cfg.WriteDuplicatesOut = d &&
        cfg.Selector.Duplicates = d
    | _ => true

/-- Whether an action is an error-status write. -/
def isHttpError : Action → Bool
  | .httpError _ _ => true
  | _ => false

/-- The suffix of a trace strictly after its first traversal action. -/
def afterTraversal (acts : List Action) : List Action :=
  (acts.dropWhile (fun a => !isTraversal a)).drop 1

/-! Concrete fixtures used by witnesses and counterexamples. -/

/-- A concrete request: GET /ipfs/bafy.../data with an entity-bytes parameter
and a Range header. -/
def reqRanged : Request :=
  { method := "GET"
    urlPath := "/ipfs/bafyroot/data"
    query := [("entity-bytes", "100:199"), ("dag-scope", "entity")]
    headers := [("Accept", "application/vnd.ipld.car"), ("Range", "bytes=0-99")]
    ctx := 7 }

/-- Library results for a well-formed ranged request that reaches the
traversal: entity-bytes 100:199, root cid 5, path "/data", CAR accepted with
duplicates allowed, entity scope, writable sink constructed, traversal
succeeds after 12 blocks. -/
def envOk : Env :=
  { parseByteRange := .ok (some { From := 100, To := some 199 })
    parseUrlPath := .ok (5, "/data")
    checkFormat := .ok { Duplicates := true }
    parseScope := .ok .entity
    newWritable := .ok ()
    verifyCar := .ok 12 }

/-- Library results for a request whose entity-bytes parameter is malformed:
ParseByteRange returns nil and an error. -/
def envBadRange : Env :=
  { envOk with parseByteRange := .error "invalid entity-bytes query parameter" }

/-- Library results for a request without an entity-bytes parameter:
ParseByteRange returns nil, nil. -/
def envNoRange : Env :=
  { envOk with parseByteRange := .ok none }

/-- Library results for a ranged request whose path does not resolve. -/
def envPathNotFound : Env :=
  { envOk with parseUrlPath := .error .errPathNotFound }

/-- Library results for a ranged request whose root identifier is malformed. -/
def envBadCid : Env :=
  { envOk with parseUrlPath := .error .errBadCid }

/-- Library results for a ranged request with some other path-parse failure. -/
def envPathOther : Env :=
  { envOk with parseUrlPath := .error (.other "url parse failure") }

/-- Library results for a ranged request with an unsupported output format. -/
def envBadFormat : Env :=
  { envOk with checkFormat := .error "unsupported format" }

/-- Library results for a ranged request with an invalid dag-scope. -/
def envBadScope : Env :=
  { envOk with parseScope := .error "invalid dag-scope" }

/-- Library results for a ranged request whose writable sink construction fails. -/
def envBadWritable : Env :=
  { envOk with newWritable := .error "could not create writable CAR" }

/-- Library results for a ranged request whose verifying traversal fails
mid-stream (a block's bytes do not hash to its claimed identifier). -/
def envBadBlock : Env :=
  { envOk with verifyCar := .error "block hash mismatch" }

/-! Helper lemmas shared between claims. -/

/-- The per-block range selection equals the slice of the concatenated bytes:
walking the blocks while decrementing the bounds by each block's length emits
exactly the bytes of the flattened object between the two bounds. -/
theorem extractRange_eq : ∀ (blocks : List (List Nat)) (a b : Nat),
    extractRange a b blocks = ((blocks.flatten).drop a).take (b - a)
  | [], a, b => by simp [extractRange]
  | c :: cs, a, b => by
    rw [extractRange, extractRange_eq cs, List.flatten_cons,
      List.drop_append_eq_append_drop, List.take_append_eq_append_take,
      List.length_drop]
    have h : b - c.length - (a - c.length) = b - a - (c.length - a) := by omega
    rw [h]

/-- When every block of the stream verifies against its content identifier,
the verifying extraction succeeds and agrees with the unverified selection. -/
theorem extractVerified_eq : ∀ (hash : List Nat → Nat)
    (stream : List (Cid × List Nat)) (a b : Nat),
    (∀ p ∈ stream, hash p.2 = p.1) →
    extractVerified hash a b stream = some (extractRange a b (stream.map Prod.snd))
  | _, [], a, b, _ => by simp [extractVerified, extractRange]
  | hash, (cid, blk) :: rest, a, b, h => by
    have hhd : hash blk = cid := h (cid, blk) (List.mem_cons_self _ _)
    have ih := extractVerified_eq hash rest (a - blk.length) (b - blk.length)
      (fun p hp => h p (List.mem_cons_of_mem _ hp))
    simp [extractVerified, hhd, ih, extractRange]

/-- Deleting a key from a query and then selecting that key yields nothing. -/
theorem filter_del_then_same (key : String) : ∀ (l : List (String × String)),
    ((l.filter fun kv => kv.1 ≠ key).filter fun kv => kv.1 = key) = []
  | [] => rfl
  | kv :: rest => by
    have ih := filter_del_then_same key rest
    simp only [List.filter_cons]
    by_cases h1 : kv.1 = key
    · have c1 : ¬(decide (kv.1 ≠ key) = true) := by simp [h1]
      rw [if_neg c1, ih]
    · have c1 : decide (kv.1 ≠ key) = true := by simp [h1]
      have c2 : ¬(decide (kv.1 = key) = true) := by simp [h1]
      rw [if_pos c1, List.filter_cons, if_neg c2, ih]

/-- Deleting one key from a query leaves the selection of any other key
unchanged. -/
theorem filter_del_then_other (key k : String) (hk : k ≠ key) :
    ∀ (l : List (String × String)),
    ((l.filter fun kv => kv.1 ≠ key).filter fun kv => kv.1 = k) =
      l.filter fun kv => kv.1 = k
  | [] => rfl
  | kv :: rest => by
    have ih := filter_del_then_other key k hk rest
    simp only [List.filter_cons]
    by_cases h1 : kv.1 = key
    · have h2 : ¬(kv.1 = k) := fun hc => hk (by rw [← hc, h1])
      have c1 : ¬(decide (kv.1 ≠ key) = true) := by simp [h1]
      have c2 : ¬(decide (kv.1 = k) = true) := by simp [h2]
      rw [if_neg c1, if_neg c2, ih]
    · have c1 : decide (kv.1 ≠ key) = true := by simp [h1]
      rw [if_pos c1, List.filter_cons]
      by_cases h2 : kv.1 = k
      · have c2 : decide (kv.1 = k) = true := by simp [h2]
        rw [if_pos c2, if_pos c2, ih]
      · have c2 : ¬(decide (kv.1 = k) = true) := by simp [h2]
        rw [if_neg c2, if_neg c2, ih]

/-- The stripped clone carries no entity-bytes query parameter. -/
theorem queryValues_delEntityBytes (req : Request) :
    (Request.delEntityBytes req).queryValues "entity-bytes" = [] := by
  show ((req.query.filter fun kv => kv.1 ≠ "entity-bytes").filter
    fun kv => kv.1 = "entity-bytes").map (fun kv => kv.2) = []
  rw [filter_del_then_same]
  rfl

/-- The stripped clone agrees with the original on every other query key. -/
theorem queryValues_delEntityBytes_other (req : Request) (k : String)
    (hk : k ≠ "entity-bytes") :
    (Request.delEntityBytes req).queryValues k = req.queryValues k := by
  show ((req.query.filter fun kv => kv.1 ≠ "entity-bytes").filter
    fun kv => kv.1 = k).map (fun kv => kv.2) = _
  rw [filter_del_then_other "entity-bytes" k hk]
  rfl

/-- Reduction of the handler on the fully successful ranged path: the main
flow builds the sink, runs the verifying traversal and cancels the context;
the producer goroutine calls next on the stripped clone through the pipe. -/
theorem handler_ranged_success (env : Env) (req : Request)
    (br : ByteRange) (root : Cid) (path : String) (accept : Accept)
    (scope : DagScope)
    (h1 : env.parseByteRange = .ok (some br))
    (h2 : env.parseUrlPath = .ok (root, path))
    (h3 : env.checkFormat = .ok accept)
    (h4 : env.parseScope = .ok scope)
    (h5 : env.newWritable = .ok ()) :
    rangeHandler.handler env req =
      ⟨[.mkWritable .clientConn [root] true accept.Duplicates,
        .verifyCar
          { Root := root
            Selector :=
              { Root := root, Path := path, Scope := scope,
                Bytes := some br, Duplicates := accept.Duplicates }
            ExpectDuplicatesIn := accept.Duplicates
            WriteDuplicatesOut := accept.Duplicates
            SkipUnexpected := true } env.verifyCar,
        .cancelCtx],
       some [.callNext .pipeWriter
         (Request.delEntityBytes (req.clone (childCtx req.ctx)))]⟩ := by
  simp [rangeHandler.handler, h1, h2, h3, h4, h5]

/-! Claims. -/

/-- C1: the claim states that for a malformed byte-range parameter the handler
responds 400 and never invokes the underlying next handler.  The code does
write the 400, but the error branch lacks a return; the nil byte range then
selects the no-range branch and next IS invoked with the original request.
This theorem evaluates the handler at the failing input and exhibits both the
400 write and the next invocation. -/
theorem c1_malformed_range_still_invokes_next :
    rangeHandler.handler envBadRange reqRanged =
      ⟨[.httpError "invalid entity-bytes query parameter" 400,
        .callNext .clientConn reqRanged], none⟩ ∧
    ((rangeHandler.handler envBadRange reqRanged).mainTrace.any invokesNext
      = true) := by
  constructor <;> rfl

/-- C2: the claim states that when the producer terminates before supplying
data, the pipe is closed from the producer side so the consumer observes
end-of-stream.  The spawned goroutine's body contains no close of the pipe
write end, and under the io.Pipe rendezvous model a consumer blocked on a
read with no pending writes and an unclosed write end can never complete:
the consumer blocks forever. -/
theorem c2_producer_never_closes_pipe :
    ((rangeHandler.handler envOk reqRanged).producer.isSome = true) ∧
    closesPipe ((rangeHandler.handler envOk reqRanged).producer.getD [])
      = false ∧
    readCanComplete []
      (closesPipe ((rangeHandler.handler envOk reqRanged).producer.getD []))
      = false := by
  exact ⟨rfl, rfl, rfl⟩

/-- C3: for a ranged request with resolved range [a, b) where
0 ≤ a < b ≤ size, the verifying extraction emits exactly the substring of the
full object's bytes from offset a to b (extractor modelled from the spec). -/
theorem c3_output_is_exact_substring (hash : List Nat → Nat)
    (stream : List (Cid × List Nat)) (a b : Nat)
    (hver : ∀ p ∈ stream, hash p.2 = p.1)
    (hab : a < b) (hsz : b ≤ ((stream.map Prod.snd).flatten).length) :
    extractVerified hash a b stream =
      some ((((stream.map Prod.snd).flatten).drop a).take (b - a)) := by
  rw [extractVerified_eq hash stream a b hver, extractRange_eq]

/-- C3 witness: two verified blocks concatenating to 10 20 30 40 50, range
[1, 4): the extraction yields bytes 20 30 40. -/
theorem c3_witness :
    extractVerified List.sum 1 4 [(30, [10, 20]), (120, [30, 40, 50])] =
      some ((((([(30, [10, 20]), (120, [30, 40, 50])] :
        List (Cid × List Nat)).map Prod.snd).flatten).drop 1).take (4 - 1)) :=
  c3_output_is_exact_substring List.sum [(30, [10, 20]), (120, [30, 40, 50])]
    1 4 (by decide) (by decide) (by decide)

/-- C4 counterexample: the claim as stated requires the handler to log the
verification failure.  At a request whose verifying traversal fails with a
block hash mismatch, the handler's trace contains the failed traversal but no
log action at all: the error pair of VerifyCar is discarded. -/
theorem c4_counterexample :
    envBadBlock.verifyCar = .error "block hash mismatch" ∧
    ((rangeHandler.handler envBadBlock reqRanged).mainTrace.any isTraversal
      = true) ∧
    ((rangeHandler.handler envBadBlock reqRanged).mainTrace.any isLog
      = false) := by
  exact ⟨rfl, rfl, rfl⟩

/-- C4 amended: when a block fails verification or a structural inconsistency
is detected, the extraction aborts: the handler writes nothing further to the
client after the traversal, emits no fresh error status, discards the error
without logging it, and never retries (the traversal runs exactly once). -/
theorem c4_verification_failure_aborts_silently (env : Env) (req : Request)
    (br : ByteRange) (root : Cid) (path : String) (accept : Accept)
    (scope : DagScope) (e : String)
    (h1 : env.parseByteRange = .ok (some br))
    (h2 : env.parseUrlPath = .ok (root, path))
    (h3 : env.checkFormat = .ok accept)
    (h4 : env.parseScope = .ok scope)
    (h5 : env.newWritable = .ok ())
    (h6 : env.verifyCar = .error e) :
    ((afterTraversal (rangeHandler.handler env req).mainTrace).any
      writesToClient = false) ∧
    ((rangeHandler.handler env req).mainTrace.any isLog = false) ∧
    ((rangeHandler.handler env req).mainTrace.countP isTraversal = 1) := by
  rw [handler_ranged_success env req br root path accept scope h1 h2 h3 h4 h5]
  refine ⟨?_, ?_, ?_⟩ <;>
    simp [afterTraversal, isTraversal, isLog, writesToClient, List.dropWhile,
      List.countP_cons, List.countP_nil]

/-- C4 witness: amended claim instantiated at the failing traversal input. -/
theorem c4_witness :
    ((afterTraversal (rangeHandler.handler envBadBlock reqRanged).mainTrace).any
      writesToClient = false) ∧
    ((rangeHandler.handler envBadBlock reqRanged).mainTrace.any isLog
      = false) ∧
    ((rangeHandler.handler envBadBlock reqRanged).mainTrace.countP isTraversal
      = 1) :=
  c4_verification_failure_aborts_silently envBadBlock reqRanged
    { From := 100, To := some 199 } 5 "/data" { Duplicates := true } .entity
    "block hash mismatch" rfl rfl rfl rfl rfl rfl

/-- C5: for a ranged request on which building the request descriptor fails
(path parse, format negotiation, scope parse, or construction of the writable
sink), the handler returns before the producer goroutine is spawned, so the
underlying retrieval is never started. -/
theorem c5_build_failure_never_spawns_producer (env : Env) (req : Request)
    (br : ByteRange)
    (h1 : env.parseByteRange = .ok (some br))
    (hfail : env.parseUrlPath.isOk = false ∨ env.checkFormat.isOk = false ∨
      env.parseScope.isOk = false ∨ env.newWritable.isOk = false) :
    (rangeHandler.handler env req).producer = none := by
  cases hpu : env.parseUrlPath with
  | error e => cases e <;> simp [rangeHandler.handler, h1, hpu]
  | ok v =>
    obtain ⟨root, path⟩ := v
    cases hcf : env.checkFormat with
    | error e => simp [rangeHandler.handler, h1, hpu, hcf]
    | ok accept =>
      cases hps : env.parseScope with
      | error e => simp [rangeHandler.handler, h1, hpu, hcf, hps]
      | ok scope =>
        cases hnw : env.newWritable with
        | error e => simp [rangeHandler.handler, h1, hpu, hcf, hps, hnw]
        | ok u =>
          rcases hfail with h | h | h | h <;>
            simp [hpu, hcf, hps, hnw, Except.isOk, Except.toBool] at h

/-- C5 witness: an unsupported output format short-circuits the producer. -/
theorem c5_witness :
    (rangeHandler.handler envBadFormat reqRanged).producer = none :=
  c5_build_failure_never_spawns_producer envBadFormat reqRanged
    { From := 100, To := some 199 } rfl (Or.inr (Or.inl rfl))

/-- C6: for a request without a byte-range parameter the subsystem is a pure
pass-through: it performs exactly one action, the invocation of the
underlying next handler with the original client writer and the unmodified
request, and spawns no producer. -/
theorem c6_no_range_pure_pass_through (env : Env) (req : Request)
    (h : env.parseByteRange = .ok none) :
    rangeHandler.handler env req = ⟨[.callNext .clientConn req], none⟩ := by
  simp [rangeHandler.handler, h]

/-- C6 witness: pass-through at a concrete request without entity-bytes. -/
theorem c6_witness :
    rangeHandler.handler envNoRange reqRanged =
      ⟨[.callNext .clientConn reqRanged], none⟩ :=
  c6_no_range_pure_pass_through envNoRange reqRanged rfl

/-- C7: for a ranged request, an unresolvable path surfaces as 404, a
malformed root identifier as 400, any other path-parse failure as 500, and an
unsupported output format as 400. -/
theorem c7_parse_error_status_mapping (env : Env) (req : Request)
    (br : ByteRange)
    (h1 : env.parseByteRange = .ok (some br)) :
    (env.parseUrlPath = .error .errPathNotFound →
      (rangeHandler.handler env req).mainTrace =
        [.httpError (PathErr.message .errPathNotFound) 404]) ∧
    (env.parseUrlPath = .error .errBadCid →
      (rangeHandler.handler env req).mainTrace =
        [.httpError (PathErr.message .errBadCid) 400]) ∧
    (∀ msg, env.parseUrlPath = .error (.other msg) →
      (rangeHandler.handler env req).mainTrace = [.httpError msg 500]) ∧
    (∀ root path e, env.parseUrlPath = .ok (root, path) →
      env.checkFormat = .error e →
      (rangeHandler.handler env req).mainTrace = [.httpError e 400]) := by
  refine ⟨fun h2 => ?_, fun h2 => ?_, fun msg h2 => ?_,
    fun root path e h2 h3 => ?_⟩ <;>
    simp [rangeHandler.handler, h1, h2, PathErr.message]
  simp [h3]

/-- C7 witness: an unresolvable path surfaces as a 404 error write. -/
theorem c7_witness :
    (rangeHandler.handler envPathNotFound reqRanged).mainTrace =
      [.httpError (PathErr.message .errPathNotFound) 404] :=
  (c7_parse_error_status_mapping envPathNotFound reqRanged
    { From := 100, To := some 199 } rfl).1 rfl

/-- C8: on the successful ranged path the producer's invocation of the
underlying retrieval receives the clone of the original request with the
entity-bytes parameter removed, through a wrapped writer whose writes go to
the pipe's write end rather than the client connection. -/
theorem c8_producer_receives_stripped_clone_via_pipe (env : Env)
    (req : Request) (br : ByteRange) (root : Cid) (path : String)
    (accept : Accept) (scope : DagScope)
    (h1 : env.parseByteRange = .ok (some br))
    (h2 : env.parseUrlPath = .ok (root, path))
    (h3 : env.checkFormat = .ok accept)
    (h4 : env.parseScope = .ok scope)
    (h5 : env.newWritable = .ok ()) :
    (rangeHandler.handler env req).producer =
      some [.callNext .pipeWriter
        (Request.delEntityBytes (req.clone (childCtx req.ctx)))] ∧
    (Request.delEntityBytes (req.clone (childCtx req.ctx))).queryValues
      "entity-bytes" = [] := by
  refine ⟨?_, queryValues_delEntityBytes _⟩
  rw [handler_ranged_success env req br root path accept scope h1 h2 h3 h4 h5]

/-- C8 witness: the producer invocation at the concrete ranged request. -/
theorem c8_witness :
    (rangeHandler.handler envOk reqRanged).producer =
      some [.callNext .pipeWriter
        (Request.delEntityBytes (reqRanged.clone (childCtx reqRanged.ctx)))] :=
  (c8_producer_receives_stripped_clone_via_pipe envOk reqRanged
    { From := 100, To := some 199 } 5 "/data" { Duplicates := true } .entity
    rfl rfl rfl rfl rfl).1

/-- C9: the duplicate-block policy negotiated from the format check is the
value used at all four configuration points: the CAR sink's
AllowDuplicatePuts option, the trustless request's Duplicates field, and the
traversal's ExpectDuplicatesIn and WriteDuplicatesOut settings — and the
trace really contains the sink construction and the traversal. -/
theorem c9_duplicates_policy_consistent (env : Env) (req : Request)
    (br : ByteRange) (root : Cid) (path : String) (accept : Accept)
    (scope : DagScope)
    (h1 : env.parseByteRange = .ok (some br))
    (h2 : env.parseUrlPath = .ok (root, path))
    (h3 : env.checkFormat = .ok accept)
    (h4 : env.parseScope = .ok scope)
    (h5 : env.newWritable = .ok ()) :
    duplicatesConsistent (rangeHandler.handler env req) accept.Duplicates
      = true ∧
    ((rangeHandler.handler env req).mainTrace.any isMkWritable = true) ∧
    ((rangeHandler.handler env req).mainTrace.any isTraversal = true) := by
  rw [handler_ranged_success env req br root path accept scope h1 h2 h3 h4 h5]
  refine ⟨?_, ?_, ?_⟩ <;>
    simp [duplicatesConsistent, isMkWritable, isTraversal]

/-- C9 witness: policy consistency at the concrete ranged request. -/
theorem c9_witness :
    duplicatesConsistent (rangeHandler.handler envOk reqRanged) true = true :=
  (c9_duplicates_policy_consistent envOk reqRanged
    { From := 100, To := some 199 } 5 "/data" { Duplicates := true } .entity
    rfl rfl rfl rfl rfl).1

/-- C10: the cloned producer request differs from the original only in its
attached context and in the removal of the entity-bytes query parameter:
every other query parameter, the URL path, the method and all headers
(including any Range header) are unchanged. -/
theorem c10_clone_differs_only_in_ctx_and_entity_bytes (env : Env)
    (req : Request) (br : ByteRange) (root : Cid) (path : String)
    (accept : Accept) (scope : DagScope)
    (h1 : env.parseByteRange = .ok (some br))
    (h2 : env.parseUrlPath = .ok (root, path))
    (h3 : env.checkFormat = .ok accept)
    (h4 : env.parseScope = .ok scope)
    (h5 : env.newWritable = .ok ()) :
    (rangeHandler.handler env req).producer =
      some [.callNext .pipeWriter
        (Request.delEntityBytes (req.clone (childCtx req.ctx)))] ∧
    (Request.delEntityBytes (req.clone (childCtx req.ctx))).method
      = req.method ∧
    (Request.delEntityBytes (req.clone (childCtx req.ctx))).urlPath
      = req.urlPath ∧
    (Request.delEntityBytes (req.clone (childCtx req.ctx))).headers
      = req.headers ∧
    (∀ k, k ≠ "entity-bytes" →
      (Request.delEntityBytes (req.clone (childCtx req.ctx))).queryValues k
        = req.queryValues k) ∧
    (Request.delEntityBytes (req.clone (childCtx req.ctx))).queryValues
      "entity-bytes" = [] ∧
    (Request.delEntityBytes (req.clone (childCtx req.ctx))).ctx
      = childCtx req.ctx ∧
    childCtx req.ctx ≠ req.ctx := by
  refine ⟨?_, rfl, rfl, rfl, fun k hk => ?_,
    queryValues_delEntityBytes _, rfl, ?_⟩
  · rw [handler_ranged_success env req br root path accept scope h1 h2 h3 h4 h5]
  · exact queryValues_delEntityBytes_other (req.clone (childCtx req.ctx)) k hk
  · simp [childCtx]

/-- C10 witness: frame condition at the concrete ranged request, checked on
the dag-scope parameter and the removed entity-bytes parameter. -/
theorem c10_witness :
    (Request.delEntityBytes (reqRanged.clone (childCtx reqRanged.ctx))).queryValues
      "dag-scope" = reqRanged.queryValues "dag-scope" ∧
    (Request.delEntityBytes (reqRanged.clone (childCtx reqRanged.ctx))).queryValues
      "entity-bytes" = [] :=
  ⟨(c10_clone_differs_only_in_ctx_and_entity_bytes envOk reqRanged
      { From := 100, To := some 199 } 5 "/data" { Duplicates := true } .entity
      rfl rfl rfl rfl rfl).2.2.2.2.1 "dag-scope" (by decide),
   (c10_clone_differs_only_in_ctx_and_entity_bytes envOk reqRanged
      { From := 100, To := some 199 } 5 "/data" { Duplicates := true } .entity
      rfl rfl rfl rfl rfl).2.2.2.2.2.1⟩

end Cassiopeia
